import Mathlib

/-!
# Verification of swarm-sentinel core algorithms

Shallow embedding of the swarm-sentinel drift sentinel (Go) in Lean 4:
the health evaluator (`internal/health/evaluate.go`), the transition
engine (`internal/transition/transition.go`), the runner's stabilization
filter (`internal/runner/runner.go`), the persisted-state migration
(`internal/state`), the notifier's HTTP response classification
(`internal/notify/http_poster.go`), the compose fetcher's error
classification (`internal/compose`), and the configuration SSRF guard.

Go maps are embedded as association lists iterated in list order; Go
`string` statuses and drift kinds are embedded as `String`; Go `int` as
`Int`.  Nil pointers and nil maps are embedded as `Option`.
-/

namespace SwarmSentinel

/-! ## String helpers mirroring the Go standard library pieces used -/

/-- `startsWithChars s pat` is true when `pat` is an initial segment of `s`
(char-level embedding of the prefix test inside `strings.Index`). -/
def startsWithChars : List Char → List Char → Bool
  | _, [] => true
  | [], _ :: _ => false
  | c :: cs, p :: ps => c = p && startsWithChars cs ps

/-- First index at which `pat` occurs in `s`, embedding `strings.Index`. -/
def findSubIdx : List Char → List Char → Option Nat
  | [], pat => if pat.isEmpty then some 0 else none
  | s@(_ :: rest), pat =>
    if startsWithChars s pat then some 0
    else (findSubIdx rest pat).map (· + 1)

/-- Embedding of `strings.Contains`. -/
def containsSubstr (s pat : String) : Bool :=
  (findSubIdx s.toList pat.toList).isSome

/-- Decimal rendering of a Go `int`, as produced by `fmt.Sprintf("%d", ...)`. -/
def intDec (i : Int) : String :=
  if i < 0 then "-" ++ Nat.repr i.natAbs else Nat.repr i.natAbs

/-- Whitespace test used by `strings.TrimSpace` (ASCII subset). -/
def isSpaceChar (c : Char) : Bool :=
  c = ' ' || c = '\t' || c = '\n' || c = '\r' || c = '\x0b' || c = '\x0c'

/-- Char-level embedding of `strings.TrimSpace`. -/
def trimSpaceChars (cs : List Char) : List Char :=
  ((cs.dropWhile isSpaceChar).reverse.dropWhile isSpaceChar).reverse

/-- Embedding of `strings.TrimSpace` on `String`. -/
def trimSpace (s : String) : String :=
  String.mk (trimSpaceChars s.toList)

/-- Lower-case a string (ASCII), embedding `strings.ToLower`. -/
def toLowerStr (s : String) : String :=
  String.mk (s.toList.map Char.toLower)

/-- Digit-run value used by `strconv.Atoi`: all characters must be digits. -/
def digitsVal (cs : List Char) : Option Nat :=
  if cs.isEmpty then none
  else if cs.all Char.isDigit then
    some (cs.foldl (fun acc c => acc * 10 + (c.toNat - '0'.toNat)) 0)
  else none

/-- Embedding of `strconv.Atoi`: optional sign followed by digits. -/
def atoi (s : String) : Option Int :=
  match s.toList with
  | [] => none
  | '+' :: rest => (digitsVal rest).map Int.ofNat
  | '-' :: rest => (digitsVal rest).map (fun n => -(n : Int))
  | cs => (digitsVal cs).map Int.ofNat

/-- Lexicographic (byte-order) comparison of char lists, embedding Go's
`<=` on strings. -/
def charLe : List Char → List Char → Bool
  | [], _ => true
  | _ :: _, [] => false
  | a :: as, b :: bs =>
    if a.toNat < b.toNat then true
    else if b.toNat < a.toNat then false
    else charLe as bs

/-- Go string comparison `a <= b`. -/
def strLe (a b : String) : Bool := charLe a.toList b.toList

/-- Ascending string sort, embedding `sort.Strings` (Go sorts ascending). -/
def sortStrings (l : List String) : List String :=
  List.insertionSort (fun a b => strLe a b = true) l

end SwarmSentinel

namespace Swarm

open SwarmSentinel

/-- `internal/swarm`: observed runtime state of one service
(stack-prefix-stripped name), from `swarm.ActualService`. -/
structure ActualService where
  name : String
  image : String
  mode : String
  desiredReplicas : Int
  runningReplicas : Int
  configs : List String
  secrets : List String
  updateState : String
deriving DecidableEq, Repr, Inhabited

/-- `swarm.ActualState`; `services` is a Go map embedded as an association
list, with `none` embedding a nil map. -/
structure ActualState where
  services : Option (List (String × ActualService))
deriving DecidableEq, Repr, Inhabited

/-- `swarm.NormalizeImage`: strip the `@sha256:...` digest suffix. -/
def NormalizeImage (image : String) : String :=
  match findSubIdx image.toList "@sha256:".toList with
  | some idx => String.mk (image.toList.take idx)
  | none => image

end Swarm

namespace Compose

/-- `internal/compose`: one declared service of the parsed `DesiredState`. -/
structure DesiredService where
  image : String
  mode : String
  replicas : Int
  configs : List String
  secrets : List String
deriving DecidableEq, Repr, Inhabited

/-- `compose.DesiredState`: map from service name to declared service,
embedded as an association list (Go map keys are unique). -/
structure DesiredState where
  services : List (String × DesiredService)
deriving DecidableEq, Repr, Inhabited

end Compose

namespace Health

open SwarmSentinel

/-- `health.StatusOK` (`health.ServiceStatus` is a Go string type). -/
def StatusOK : String := "OK"

/-- `health.StatusDegraded`. -/
def StatusDegraded : String := "DEGRADED"

/-- `health.StatusFailed`. -/
def StatusFailed : String := "FAILED"

/-- `health.DriftDetail` (kind and resource are Go string types). -/
structure DriftDetail where
  kind : String
  resource : String
  name : String
deriving DecidableEq, Repr, Inhabited

/-- `health.ServiceHealth` (current revision, with replica/image fields
and the stabilization bookkeeping used by the runner). -/
structure ServiceHealth where
  name : String := ""
  status : String := ""
  reasons : List String := []
  drift : List DriftDetail := []
  desiredImage : String := ""
  actualImage : String := ""
  desiredReplicas : Int := 0
  runningReplicas : Int := 0
  consecutiveCycles : Int := 0
  lastNotifiedStatus : String := ""
deriving DecidableEq, Repr, Inhabited

/-- The Go zero value of `health.ServiceHealth`. -/
def ServiceHealth.zero : ServiceHealth := {}

/-- `health.StackHealth`; the services map is an association list. -/
structure StackHealth where
  status : String
  services : List (String × ServiceHealth)
deriving DecidableEq, Repr, Inhabited

/-- `health.severity`: FAILED ↦ 2, DEGRADED ↦ 1, anything else ↦ 0. -/
def severity (status : String) : Int :=
  if status = StatusFailed then 2
  else if status = StatusDegraded then 1
  else 0

/-- `health.worsenStatus`: keep the worse of the two statuses. -/
def worsenStatus (current next : String) : String :=
  if severity next > severity current then next else current

/-- `health.diffNames`: names in `desired` not in `actual` and vice versa,
each sorted (`sort.Strings`). -/
def diffNames (desired actual : List String) : List String × List String :=
  if desired.isEmpty && actual.isEmpty then ([], [])
  else
    (sortStrings (desired.filter (fun name => !(actual.contains name))),
     sortStrings (actual.filter (fun name => !(desired.contains name))))

/-- `health.applyDrift`: append "missing/extra <resource>: <name>" reasons
and the matching `DriftDetail`s for one resource kind. -/
def applyDrift (reasons : List String) (drift : List DriftDetail)
    (resource : String) (desired actual : List String) :
    List String × List DriftDetail :=
  let diffd := diffNames desired actual
  let missing := diffd.1
  let extra := diffd.2
  let reasons := reasons ++ missing.map (fun name => "missing " ++ resource ++ ": " ++ name)
  let drift := drift ++ missing.map (fun name =>
    { kind := "MISSING", resource := resource, name := name : DriftDetail })
  let reasons := reasons ++ extra.map (fun name => "extra " ++ resource ++ ": " ++ name)
  let drift := drift ++ extra.map (fun name =>
    { kind := "EXTRA", resource := resource, name := name : DriftDetail })
  (reasons, drift)

/-- The `desiredReplicas` local of `health.evaluateService`: for
`global` mode, substitute the orchestrator's observed desired count. -/
def effectiveDesiredReplicas (desired : Compose.DesiredService)
    (actual : Swarm.ActualService) : Int :=
  if desired.mode = "global" then actual.desiredReplicas else desired.replicas

/-- The status accumulated by `health.evaluateService` through the image
and replica rules, before the drift-kind worsening loop. -/
def preDriftStatus (desired : Compose.DesiredService)
    (actual : Swarm.ActualService) : String :=
  let desiredImage := Swarm.NormalizeImage desired.image
  let actualImage := Swarm.NormalizeImage actual.image
  let status1 := if desiredImage ≠ actualImage then worsenStatus StatusOK StatusDegraded else StatusOK
  let desiredReplicas := effectiveDesiredReplicas desired actual
  if desiredReplicas > 0 then
    if actual.runningReplicas = 0 then worsenStatus status1 StatusFailed
    else if actual.runningReplicas < desiredReplicas then worsenStatus status1 StatusDegraded
    else if actual.runningReplicas > desiredReplicas then worsenStatus status1 StatusDegraded
    else status1
  else status1

/-- The reasons accumulated by `health.evaluateService` through the image
and replica rules, before the config/secret drift reasons. -/
def preDriftReasons (desired : Compose.DesiredService)
    (actual : Swarm.ActualService) : List String :=
  let desiredImage := Swarm.NormalizeImage desired.image
  let actualImage := Swarm.NormalizeImage actual.image
  let reasons1 : List String :=
    if desiredImage ≠ actualImage then
      ["image mismatch: want " ++ desiredImage ++ " got " ++ actualImage]
    else []
  let desiredReplicas := effectiveDesiredReplicas desired actual
  if desiredReplicas > 0 then
    if actual.runningReplicas = 0 then
      reasons1 ++ ["no running replicas (desired " ++ intDec desiredReplicas ++ ")"]
    else if actual.runningReplicas < desiredReplicas then
      reasons1 ++ ["replicas running " ++ intDec actual.runningReplicas ++ "/" ++ intDec desiredReplicas]
    else if actual.runningReplicas > desiredReplicas then
      reasons1 ++ ["replicas running " ++ intDec actual.runningReplicas ++ "/" ++ intDec desiredReplicas]
    else reasons1
  else reasons1

/-- `health.evaluateService`: evaluate one declared service against its
observed counterpart (image rule, replica rules, config/secret drift,
then the drift-kind worsening loop). -/
def evaluateService (name : String) (desired : Compose.DesiredService)
    (actual : Swarm.ActualService) : ServiceHealth :=
  let rd1 := applyDrift (preDriftReasons desired actual) [] "config" desired.configs actual.configs
  let rd2 := applyDrift rd1.1 rd1.2 "secret" desired.secrets actual.secrets
  let status3 := rd2.2.foldl (fun st d =>
    if d.kind = "MISSING" then worsenStatus st StatusFailed
    else if d.kind = "EXTRA" then worsenStatus st StatusDegraded
    else st) (preDriftStatus desired actual)
  { name := name
    status := status3
    reasons := rd2.1
    drift := rd2.2
    desiredImage := Swarm.NormalizeImage desired.image
    actualImage := Swarm.NormalizeImage actual.image
    desiredReplicas := effectiveDesiredReplicas desired actual
    runningReplicas := actual.runningReplicas }

/-- The `!ok` branch of the desired-services loop in
`health.EvaluateStackHealth`: declared service absent from observed. -/
def missingServiceHealth (name : String) (desired : Compose.DesiredService) : ServiceHealth :=
  { name := name
    status := StatusFailed
    reasons := ["missing service"]
    desiredImage := Swarm.NormalizeImage desired.image
    desiredReplicas := desired.replicas }

/-- Go map lookup on an association list of actual services. -/
def lookupActual (l : List (String × Swarm.ActualService)) (k : String) :
    Option Swarm.ActualService :=
  (l.find? (fun p => p.1 = k)).map (·.2)

/-- The body of the desired-services loop of `health.EvaluateStackHealth`:
the health recorded for one declared service. -/
def desiredEntryHealth (actualServices : List (String × Swarm.ActualService))
    (p : String × Compose.DesiredService) : ServiceHealth :=
  match lookupActual actualServices p.1 with
  | none => missingServiceHealth p.1 p.2
  | some actualService => evaluateService p.1 p.2 actualService

/-- The health recorded for an observed service that is not declared
(the `stackScoped` extra-services loop of `health.EvaluateStackHealth`). -/
def extraEntryHealth (name : String) (actualService : Swarm.ActualService) : ServiceHealth :=
  { name := name
    status := StatusDegraded
    reasons := ["extra service"]
    actualImage := Swarm.NormalizeImage actualService.image
    desiredReplicas := actualService.desiredReplicas
    runningReplicas := actualService.runningReplicas
    drift := [{ kind := "EXTRA_SERVICE", resource := "service", name := actualService.name }] }

/-- The loop over `desired.Services` in `health.EvaluateStackHealth`,
threading the accumulated services and the worsened stack status. -/
def evalDesiredLoop (actualServices : List (String × Swarm.ActualService)) :
    List (String × Compose.DesiredService) →
    List (String × ServiceHealth) × String →
    List (String × ServiceHealth) × String
  | [], acc => acc
  | (name, desiredService) :: rest, (svcs, st) =>
    let h := desiredEntryHealth actualServices (name, desiredService)
    evalDesiredLoop actualServices rest (svcs ++ [(name, h)], worsenStatus st h.status)

/-- The `stackScoped` extra-services loop in `health.EvaluateStackHealth`. -/
def evalExtraLoop (desiredServices : List (String × Compose.DesiredService)) :
    List (String × Swarm.ActualService) →
    List (String × ServiceHealth) × String →
    List (String × ServiceHealth) × String
  | [], acc => acc
  | (name, actualService) :: rest, (svcs, st) =>
    if (desiredServices.find? (fun p => p.1 = name)).isSome then
      evalExtraLoop desiredServices rest (svcs, st)
    else
      let h := extraEntryHealth name actualService
      evalExtraLoop desiredServices rest (svcs ++ [(name, h)], worsenStatus st h.status)

/-- `health.EvaluateStackHealth`: a nil `ActualState` pointer (`none`) and
a nil services map are normalized to the empty map before evaluation. -/
def EvaluateStackHealth (desired : Compose.DesiredState)
    (actual : Option Swarm.ActualState) (stackScoped : Bool) : StackHealth :=
  let actualServices : List (String × Swarm.ActualService) :=
    match actual with
    | none => []
    | some a => a.services.getD []
  let acc1 := evalDesiredLoop actualServices desired.services ([], StatusOK)
  let acc2 :=
    if stackScoped then evalExtraLoop desired.services actualServices acc1
    else acc1
  { status := acc2.2, services := acc2.1 }

end Health

namespace StateStore

/-- `state.StackSnapshot`; the services map is an association list with
`none` embedding a nil map.  `evaluatedAt` embeds the UTC timestamp as
UNIX nanoseconds. -/
structure StackSnapshot where
  desiredFingerprint : String := ""
  services : Option (List (String × Health.ServiceHealth)) := none
  evaluatedAt : Int := 0
deriving DecidableEq, Repr, Inhabited

/-- `state.CurrentStateVersion`. -/
def CurrentStateVersion : Int := 1

/-- `state.State`: the persisted document; `stacksMap` embeds the
`Stacks` field, an association list with `none` embedding a nil map. -/
structure StateDoc where
  version : Int := 0
  stacksMap : Option (List (String × StackSnapshot)) := none
deriving DecidableEq, Repr, Inhabited

/-- The empty state returned for a missing, corrupt or too-new file. -/
def freshState : StateDoc :=
  { version := CurrentStateVersion, stacksMap := some [] }

/-- Disk contents as seen by `FileStore.Load`: `none` embeds a missing
file, `some none` an unparseable file, `some (some st)` a parsed document. -/
def loadState (disk : Option (Option StateDoc)) : StateDoc :=
  match disk with
  | none => freshState
  | some none => freshState
  | some (some parsed) =>
    let st := if parsed.version = 0 then { parsed with version := CurrentStateVersion } else parsed
    if st.version > CurrentStateVersion then freshState
    else if st.stacksMap = none then { st with stacksMap := some [] }
    else st

end StateStore

namespace Transition

open SwarmSentinel

/-- `transition.ReplicaChange`. -/
structure ReplicaChange where
  previousDesired : Int
  currentDesired : Int
  previousRunning : Int
  currentRunning : Int
  desiredDelta : Int
  runningDelta : Int
deriving DecidableEq, Repr, Inhabited

/-- `transition.ImageChange`. -/
structure ImageChange where
  previousDesired : String
  currentDesired : String
  previousActual : String
  currentActual : String
deriving DecidableEq, Repr, Inhabited

/-- `transition.ServiceTransition`. -/
structure ServiceTransition where
  name : String
  previousStatus : String
  currentStatus : String
  reasons : List String
  drift : List Health.DriftDetail
  replicaChange : Option ReplicaChange
  imageChange : Option ImageChange
deriving DecidableEq, Repr, Inhabited

/-- Go map lookup on an association list of service healths. -/
def lookupSvc (l : List (String × Health.ServiceHealth)) (k : String) :
    Option Health.ServiceHealth :=
  (l.find? (fun p => p.1 = k)).map (·.2)

/-- The `prevServices` local of `DetectServiceTransitions` (and of the
runner's `stabilizeTransitions`): empty unless both the snapshot pointer
and its services map are non-nil. -/
def snapServices (prev : Option StateStore.StackSnapshot) :
    List (String × Health.ServiceHealth) :=
  match prev with
  | some p => p.services.getD []
  | none => []

/-- The `firstRun` local: nil snapshot or empty previous services map. -/
def isFirstRun (prev : Option StateStore.StackSnapshot) : Bool :=
  match prev with
  | none => true
  | some _ => (snapServices prev).isEmpty

/-- `transition.buildReplicaChange`. -/
def buildReplicaChange (prev current : Health.ServiceHealth) (hadPrev : Bool) :
    Option ReplicaChange :=
  if !hadPrev && current.desiredReplicas = 0 && current.runningReplicas = 0 then none
  else some
    { previousDesired := prev.desiredReplicas
      currentDesired := current.desiredReplicas
      previousRunning := prev.runningReplicas
      currentRunning := current.runningReplicas
      desiredDelta := current.desiredReplicas - prev.desiredReplicas
      runningDelta := current.runningReplicas - prev.runningReplicas }

/-- `transition.buildImageChange`. -/
def buildImageChange (prev current : Health.ServiceHealth) (hadPrev : Bool) :
    Option ImageChange :=
  if !hadPrev && current.desiredImage = "" && current.actualImage = "" then none
  else some
    { previousDesired := prev.desiredImage
      currentDesired := current.desiredImage
      previousActual := prev.actualImage
      currentActual := current.actualImage }

/-- The `prevStatus` local of the loop in `DetectServiceTransitions`:
the last notified status when recorded, else the prior status. -/
def prevStatusOf (prevService : Health.ServiceHealth) : String :=
  if prevService.lastNotifiedStatus ≠ "" then prevService.lastNotifiedStatus
  else prevService.status

/-- The loop body of `DetectServiceTransitions` over the current services
(before the final sort), in iteration order. -/
def detectLoop (prevServices : List (String × Health.ServiceHealth)) (firstRun : Bool) :
    List (String × Health.ServiceHealth) → List ServiceTransition
  | [] => []
  | (name, currentService) :: rest =>
    let prevOpt := lookupSvc prevServices name
    let hadPrev := prevOpt.isSome
    let prevService := prevOpt.getD Health.ServiceHealth.zero
    let prevStatus := prevStatusOf prevService
    let skip :=
      if firstRun then currentService.status = Health.StatusOK
      else if hadPrev then prevStatus = currentService.status
      else currentService.status = Health.StatusOK
    if skip then detectLoop prevServices firstRun rest
    else
      { name := name
        previousStatus := prevStatus
        currentStatus := currentService.status
        reasons := currentService.reasons
        drift := currentService.drift
        replicaChange := buildReplicaChange prevService currentService hadPrev
        imageChange := buildImageChange prevService currentService hadPrev }
        :: detectLoop prevServices firstRun rest

/-- `transition.DetectServiceTransitions` (current revision): diff the
previous snapshot against the current health and sort the emitted
transitions by service name (`sort.Slice` on `Name <`). -/
def DetectServiceTransitions (prev : Option StateStore.StackSnapshot)
    (current : Health.StackHealth) : List ServiceTransition :=
  let prevServices := snapServices prev
  let firstRun := isFirstRun prev
  List.insertionSort (fun a b => strLe a.name b.name = true)
    (detectLoop prevServices firstRun current.services)

end Transition

namespace Runner

open SwarmSentinel

/-- The `consecutive` local of the loop in `Runner.stabilizeTransitions`. -/
def stabConsecutive (prevOpt : Option Health.ServiceHealth)
    (service : Health.ServiceHealth) : Int :=
  let hadPrev := prevOpt.isSome
  let prevService := prevOpt.getD Health.ServiceHealth.zero
  if hadPrev && prevService.status = service.status then
    if prevService.consecutiveCycles > 0 then prevService.consecutiveCycles + 1 else 2
  else 1

/-- The `lastNotified` local of the loop in `Runner.stabilizeTransitions`:
the stored last-notified status, falling back to the prior status when it
was never recorded and a prior entry exists. -/
def stabLastNotified (prevOpt : Option Health.ServiceHealth) : String :=
  let hadPrev := prevOpt.isSome
  let prevService := prevOpt.getD Health.ServiceHealth.zero
  if prevService.lastNotifiedStatus = "" && hadPrev then prevService.status
  else prevService.lastNotifiedStatus

/-- The `shouldNotify` local of the loop in `Runner.stabilizeTransitions`:
on the first run, any non-OK status notifies; afterwards, a status that
differs from the last notified one notifies once the stabilization
threshold is met. -/
def stabShouldNotify (stabilization : Int) (prevOpt : Option Health.ServiceHealth)
    (firstRun : Bool) (service : Health.ServiceHealth) : Bool :=
  if firstRun then service.status != Health.StatusOK
  else if service.status != stabLastNotified prevOpt then
    decide (stabilization ≤ 1) || decide (stabConsecutive prevOpt service ≥ stabilization)
  else false

/-- The loop of `Runner.stabilizeTransitions` over the current services,
returning the updated snapshot entries and the notification-eligible
entries fed to the transition detector. -/
def stabilizeLoop (stabilization : Int)
    (prevServices : List (String × Health.ServiceHealth)) (firstRun : Bool) :
    List (String × Health.ServiceHealth) →
    List (String × Health.ServiceHealth) × List (String × Health.ServiceHealth)
  | [] => ([], [])
  | (name, service) :: rest =>
    let prevOpt := Transition.lookupSvc prevServices name
    let consecutive := stabConsecutive prevOpt service
    let lastNotified := stabLastNotified prevOpt
    let service' := { service with
      consecutiveCycles := consecutive
      lastNotifiedStatus := lastNotified }
    let shouldNotify := stabShouldNotify stabilization prevOpt firstRun service
    let restAcc := stabilizeLoop stabilization prevServices firstRun rest
    if shouldNotify then
      ((name, { service' with lastNotifiedStatus := service.status }) :: restAcc.1,
       (name, service') :: restAcc.2)
    else
      ((name, service') :: restAcc.1, restAcc.2)

/-- `Runner.stabilizeTransitions`: clamp the stabilization parameter,
update per-service bookkeeping, and run the transition detector on the
notification-eligible services only. -/
def stabilizeTransitions (alertStabilizationCycles : Int)
    (prev : Option StateStore.StackSnapshot) (current : Health.StackHealth) :
    List (String × Health.ServiceHealth) × List Transition.ServiceTransition :=
  let stabilization := if alertStabilizationCycles ≤ 0 then 1 else alertStabilizationCycles
  let prevServices := Transition.snapServices prev
  let firstRun := Transition.isFirstRun prev
  let acc := stabilizeLoop stabilization prevServices firstRun current.services
  (acc.1, Transition.DetectServiceTransitions prev
    { status := current.status, services := acc.2 })

end Runner

namespace Notify

open SwarmSentinel

/-- `notify.httpErrorBodyLimit`. -/
def httpErrorBodyLimit : Nat := 1024

/-- The error values produced by `httpPoster.postOnce` for a received
HTTP response: `retryAfterError` (with its wait duration in nanoseconds),
`retryableError`, or a plain terminal error, each carrying its message. -/
inductive PostError where
  | retryAfter (wait : Int) (msg : String)
  | retryable (msg : String)
  | terminal (msg : String)
deriving DecidableEq, Repr, Inhabited

/-- An HTTP response as seen by `postOnce`: the numeric code, the status
line `resp.Status` (e.g. `"429 Too Many Requests"`), the body, and the
`Retry-After` header value. -/
structure HTTPResponse where
  statusCode : Nat
  statusText : String
  body : String
  retryAfterHeader : String
deriving DecidableEq, Repr, Inhabited

/-- `notify.parseRetryAfter`: integer seconds first (`strconv.Atoi`),
then an HTTP date.  `dateUntil` embeds `time.Until(when)` in nanoseconds
for a header that `http.ParseTime` accepts (`none` when it does not);
the result is the wait duration in nanoseconds. -/
def parseRetryAfter (value : String) (dateUntil : Option Int) : Option Int :=
  if value = "" then none
  else match atoi value with
  | some seconds =>
    if seconds ≤ 0 then none else some (seconds * 1000000000)
  | none =>
    match dateUntil with
    | some wait => if wait ≤ 0 then none else some wait
    | none => none

/-- The `bodyText` local of `postOnce`: at most `httpErrorBodyLimit`
bytes of the body (`io.LimitReader`), trimmed. -/
def bodyTextOf (body : String) : String :=
  trimSpace (String.mk (body.toList.take httpErrorBodyLimit))

/-- The response-classification part of `httpPoster.postOnce`:
2xx succeeds; 429 yields a `retryAfterError` when `Retry-After` parses,
else a `retryableError`; 5xx yields a `retryableError`; anything else is
a terminal error carrying the status line and the trimmed 1 KiB body. -/
def classifyResponse (serviceName : String) (resp : HTTPResponse)
    (dateUntil : Option Int) : Option PostError :=
  let bodyText := bodyTextOf resp.body
  if 200 ≤ resp.statusCode ∧ resp.statusCode < 300 then none
  else if resp.statusCode = 429 then
    match parseRetryAfter resp.retryAfterHeader dateUntil with
    | some wait => some (.retryAfter wait (serviceName ++ " rate limited: " ++ resp.statusText))
    | none => some (.retryable (serviceName ++ " rate limited: " ++ resp.statusText))
  else if 500 ≤ resp.statusCode then
    some (.retryable (serviceName ++ " server error: " ++ resp.statusText))
  else if bodyText ≠ "" then
    some (.terminal (serviceName ++ " request failed: " ++ resp.statusText ++ " (" ++ bodyText ++ ")"))
  else
    some (.terminal (serviceName ++ " request failed: " ++ resp.statusText))

/-- What the `postWithRetry` loop does after one attempt. -/
inductive RetryAction where
  | succeed
  | sleepThenRetry (wait : Int)
  | fail (msg : String)
deriving DecidableEq, Repr, Inhabited

/-- One iteration of the `httpPoster.postWithRetry` loop: a
`retryAfterError` sleeps exactly its duration and retries; a
`retryableError` takes the next exponential-backoff wait (`none` embeds
`backoff.Stop`, which surrenders); any other error is terminal.
`nextBackoff` embeds `backoffCfg.NextBackOff()` in nanoseconds. -/
def postWithRetryStep (result : Option PostError) (nextBackoff : Option Int) :
    RetryAction :=
  match result with
  | none => .succeed
  | some (.retryAfter wait _) => .sleepThenRetry wait
  | some (.retryable msg) =>
    match nextBackoff with
    | some wait => .sleepThenRetry wait
    | none => .fail msg
  | some (.terminal msg) => .fail msg

end Notify

namespace Compose

open SwarmSentinel

/-- Modelled from the spec: the compose fetcher's typed fetch error.
The revision of `internal/compose` defining `FetchError` is not among
the sources (the fetcher test references `FetchError`, `StatusCode` and
`IsRetryable`, but no source file defines the type); spec §4.3: "A
distinct `FetchError` type carries the status code so callers can
classify without string-matching". -/
structure FetchError where
  statusCode : Nat
deriving DecidableEq, Repr, Inhabited

/-- Modelled from the spec: retryability of a `FetchError`, decided from
the carried status code alone ("Retryable: network-level errors and any
5xx"; "Non-retryable: non-2xx that is not 304 and not 5xx"). -/
def FetchError.IsRetryable (e : FetchError) : Bool :=
  500 ≤ e.statusCode && e.statusCode < 600

/-- Modelled from the spec: the error produced by the compose fetcher for
an HTTP response status — 2xx and 304 succeed, every other status yields
a `FetchError` carrying that status code. -/
def fetchResponseError (status : Nat) : Option FetchError :=
  if (200 ≤ status ∧ status < 300) ∨ status = 304 then none
  else some { statusCode := status }

end Compose

namespace Config

open SwarmSentinel

/-- A parsed URL as validation sees it (`url.Parse` output projected to
the fields the guard reads). -/
structure ParsedURL where
  scheme : String
  host : String
deriving DecidableEq, Repr, Inhabited

/-- Split a char list on a separator char. -/
def splitChar (sep : Char) : List Char → List (List Char)
  | [] => [[]]
  | c :: cs =>
    let r := splitChar sep cs
    if c = sep then [] :: r
    else
      match r with
      | h :: t => (c :: h) :: t
      | [] => [[c]]

/-- Parse one dotted-decimal IPv4 octet: digits only, value ≤ 255. -/
def parseOctet (s : List Char) : Option Nat :=
  match digitsVal s with
  | some n => if n ≤ 255 then some n else none
  | none => none

/-- Parse a literal IPv4 address `a.b.c.d`. -/
def parseIPv4 (host : String) : Option (Nat × Nat × Nat × Nat) :=
  match (splitChar '.' host.toList).map parseOctet with
  | [some a, some b, some c, some d] => some (a, b, c, d)
  | _ => none

/-- Modelled from the spec: the blocked cloud-metadata hosts of the SSRF
guard ("Reject URLs whose host is or resolves to `169.254.169.254`,
`169.254.170.2`, `metadata.google.internal`, `metadata.goog`,
`metadata.azure.com`"). -/
def blockedMetadataHosts : List String :=
  ["169.254.169.254", "169.254.170.2", "metadata.google.internal",
   "metadata.goog", "metadata.azure.com"]

/-- Modelled from the spec: whether a host literal lies in
`169.254.0.0/16` ("or any `169.254.0.0/16` address"). -/
def isLinkLocal (host : String) : Bool :=
  match parseIPv4 host with
  | some (a, b, _, _) => a = 169 && b = 254
  | none => false

/-- Modelled from the spec: the compose-URL validation of configuration
load — http(s) scheme plus the SSRF guard.  The guard's implementation is
not among the sources (only its tests in `config_test.go` are); spec §6:
"Reject URLs whose host is or resolves to [the metadata endpoints] or any
`169.254.0.0/16` address.  Reject non-http(s) schemes."  DNS resolution
is outside the model: hosts are checked as literals.  A Go `error`
result is embedded as `Option String` (`none` = nil error). -/
def validateComposeURL (u : ParsedURL) : Option String :=
  if u.scheme ≠ "http" && u.scheme ≠ "https" then
    some "invalid SS_COMPOSE_URL: must be http or https URL"
  else if blockedMetadataHosts.contains u.host then
    some "invalid SS_COMPOSE_URL: cloud metadata endpoint is not allowed"
  else if isLinkLocal u.host then
    some "invalid SS_COMPOSE_URL: link-local address is not allowed"
  else
    none

end Config

namespace Health

open SwarmSentinel

/-- Spec-side: the status with a given severity (`OK < DEGRADED < FAILED`). -/
def statusOfSeverity (n : Int) : String :=
  if n = 2 then StatusFailed
  else if n = 1 then StatusDegraded
  else StatusOK

/-- Spec-side: the maximum severity over a list of statuses (0 when empty). -/
def maxSeverity (statuses : List String) : Int :=
  statuses.foldl (fun m s => max m (severity s)) 0

/-- Spec-side: the sorted set-difference of two name lists (`xs − ys`),
as the spec's drift rule describes it. -/
def sortedDiff (xs ys : List String) : List String :=
  sortStrings (xs.filter (fun name => !(ys.contains name)))

end Health

/-! ## Concrete scenario inputs (from the spec's end-to-end scenarios and
the repository's tests) -/

namespace Fixtures

/-- Fixtures "update in progress": desired `api` with 3 replicas. -/
def updDesired : Compose.DesiredService :=
  { image := "app:v1", mode := "replicated", replicas := 3, configs := [], secrets := [] }

/-- Fixtures "update in progress": observed `api`, one of three replicas
running, `updateState = "updating"`. -/
def updActual : Swarm.ActualService :=
  { name := "api", image := "app:v1", mode := "replicated", desiredReplicas := 3,
    runningReplicas := 1, configs := [], secrets := [], updateState := "updating" }

/-- Config/secret drift scenario: desired `api` with `cfg1` and `sec1`. -/
def driftDesired : Compose.DesiredService :=
  { image := "app:v1", mode := "replicated", replicas := 0,
    configs := ["cfg1"], secrets := ["sec1"] }

/-- Config/secret drift scenario: observed `api` with no configs and
secrets `sec1`, `sec2`. -/
def driftActual : Swarm.ActualService :=
  { name := "api", image := "app:v1", mode := "replicated", desiredReplicas := 0,
    runningReplicas := 0, configs := [], secrets := ["sec1", "sec2"], updateState := "" }

/-- Stabilization scenario: `api` healthy in the prior snapshot. -/
def apiOK : Health.ServiceHealth :=
  { name := "api", status := "OK", desiredReplicas := 2, runningReplicas := 2 }

/-- Stabilization scenario: `api` degraded (1/2 replicas running). -/
def apiDegraded : Health.ServiceHealth :=
  { name := "api", status := "DEGRADED", reasons := ["replicas running 1/2"],
    desiredReplicas := 2, runningReplicas := 1 }

/-- Stabilization scenario: the snapshot before cycle A. -/
def snapBeforeA : StateStore.StackSnapshot := { services := some [("api", apiOK)] }

/-- Stabilization scenario: the per-cycle health seen in cycles A and B. -/
def degradedHealth : Health.StackHealth :=
  { status := "DEGRADED", services := [("api", apiDegraded)] }

/-- Stabilization scenario: the `api` entry written back by cycle A
(status `DEGRADED`, one consecutive cycle, last notified status `OK`). -/
def apiAfterA : Health.ServiceHealth :=
  { name := "api", status := "DEGRADED", reasons := ["replicas running 1/2"],
    desiredReplicas := 2, runningReplicas := 1,
    consecutiveCycles := 1, lastNotifiedStatus := "OK" }

/-- Stabilization scenario: the snapshot before cycle B. -/
def snapBeforeB : StateStore.StackSnapshot := { services := some [("api", apiAfterA)] }

/-- A 429 response carrying `Retry-After: 2`. -/
def resp429 : Notify.HTTPResponse :=
  { statusCode := 429, statusText := "429 Too Many Requests", body := "",
    retryAfterHeader := "2" }

end Fixtures

/-! ## Theorems -/

namespace Health

open SwarmSentinel

theorem severity_nonneg (s : String) : 0 ≤ severity s := by
  unfold severity
  split
  · norm_num
  · split <;> norm_num

theorem severity_le_two (s : String) : severity s ≤ 2 := by
  unfold severity
  split
  · norm_num
  · split <;> norm_num

theorem canonical_of_sev_pos (s : String) (h : 0 < severity s) :
    statusOfSeverity (severity s) = s := by
  by_cases hf : s = StatusFailed
  · subst hf; rfl
  · by_cases hd : s = StatusDegraded
    · subst hd; rfl
    · exfalso
      unfold severity at h
      simp [hf, hd] at h

theorem statusOfSeverity_worsen (a b : String)
    (ha : statusOfSeverity (severity a) = a) :
    statusOfSeverity (severity (worsenStatus a b)) = worsenStatus a b ∧
    severity (worsenStatus a b) = max (severity a) (severity b) := by
  unfold worsenStatus
  by_cases h : severity b > severity a
  · simp only [h, if_true]
    refine ⟨canonical_of_sev_pos b (lt_of_le_of_lt (severity_nonneg a) h), ?_⟩
    omega
  · simp only [h, if_false]
    exact ⟨ha, by omega⟩

theorem foldl_worsen_eq (l : List String) : ∀ (acc : String),
    statusOfSeverity (severity acc) = acc →
    l.foldl worsenStatus acc =
      statusOfSeverity (l.foldl (fun m s => max m (severity s)) (severity acc)) := by
  induction l with
  | nil => intro acc ha; simpa using ha.symm
  | cons x xs ih =>
    intro acc ha
    have h := statusOfSeverity_worsen acc x ha
    simp only [List.foldl_cons]
    rw [ih _ h.1, h.2]

theorem canonical_ok : statusOfSeverity (severity StatusOK) = StatusOK := rfl

theorem sev_ok : severity StatusOK = 0 := by decide

theorem evalDesiredLoop_eq (as_ : List (String × Swarm.ActualService)) :
    ∀ (ds : List (String × Compose.DesiredService))
      (svcs : List (String × ServiceHealth)) (st : String),
    evalDesiredLoop as_ ds (svcs, st) =
      (svcs ++ ds.map (fun p => (p.1, desiredEntryHealth as_ p)),
       (ds.map (fun p => (p.1, desiredEntryHealth as_ p))).foldl
         (fun m q => worsenStatus m q.2.status) st) := by
  intro ds
  induction ds with
  | nil => intro svcs st; simp [evalDesiredLoop]
  | cons p rest ih =>
    intro svcs st
    obtain ⟨name, dsvc⟩ := p
    show evalDesiredLoop as_ ((name, dsvc) :: rest) (svcs, st) = _
    rw [evalDesiredLoop, ih]
    simp [List.append_assoc]

theorem evalExtraLoop_eq (ds : List (String × Compose.DesiredService)) :
    ∀ (l : List (String × Swarm.ActualService))
      (svcs : List (String × ServiceHealth)) (st : String),
    evalExtraLoop ds l (svcs, st) =
      (svcs ++ ((l.filter (fun p => !((ds.find? (fun q => q.1 = p.1)).isSome))).map
          (fun p => (p.1, extraEntryHealth p.1 p.2))),
       (((l.filter (fun p => !((ds.find? (fun q => q.1 = p.1)).isSome))).map
          (fun p => (p.1, extraEntryHealth p.1 p.2))).foldl
         (fun m q => worsenStatus m q.2.status) st)) := by
  intro l
  induction l with
  | nil => intro svcs st; simp [evalExtraLoop]
  | cons p rest ih =>
    intro svcs st
    obtain ⟨name, asvc⟩ := p
    show evalExtraLoop ds ((name, asvc) :: rest) (svcs, st) = _
    rw [evalExtraLoop]
    cases hf : ds.find? (fun q => q.1 = name) with
    | some v =>
      rw [if_pos (by simp [hf]), ih]
      simp [List.filter_cons, hf]
    | none =>
      rw [if_neg (by simp [hf]), ih]
      simp [List.filter_cons, hf, List.append_assoc]

/-- **C6**: For every `DesiredState`, `ActualState` and `stackScoped`
flag, the `StackHealth` returned by the evaluator has `Status` equal to
the maximum severity over its `Services` map under `OK < DEGRADED <
FAILED`, and equal to `OK` when the map is empty (`maxSeverity [] = 0`
and `statusOfSeverity 0 = OK`). -/
theorem EvaluateStackHealth_status_is_max_severity (d : Compose.DesiredState)
    (a : Option Swarm.ActualState) (sc : Bool) :
    (EvaluateStackHealth d a sc).status =
      statusOfSeverity (maxSeverity
        ((EvaluateStackHealth d a sc).services.map (fun q => q.2.status))) := by
  unfold EvaluateStackHealth maxSeverity
  cases sc with
  | false =>
    simp only [Bool.false_eq_true, if_false]
    rw [evalDesiredLoop_eq]
    simp only [List.nil_append]
    rw [← List.foldl_map (fun q : String × ServiceHealth => q.2.status) worsenStatus,
      foldl_worsen_eq _ _ canonical_ok, sev_ok]
  | true =>
    simp only [if_true]
    rw [evalDesiredLoop_eq, evalExtraLoop_eq]
    simp only [List.nil_append, List.map_append]
    rw [← List.foldl_map (fun q : String × ServiceHealth => q.2.status) worsenStatus,
      ← List.foldl_map (fun q : String × ServiceHealth => q.2.status) worsenStatus,
      ← List.foldl_append, foldl_worsen_eq _ _ canonical_ok, sev_ok]

end Health

namespace Health

open SwarmSentinel

/-- **C10**: With a nil `ActualState` pointer or a nil observed services
map, the evaluator returns normally and behaves exactly as for an empty
observed service set: every declared service reports `FAILED` with the
single reason "missing service", and no extra-service entries appear even
when `stackScoped` is true. -/
theorem EvaluateStackHealth_nil_actual (d : Compose.DesiredState) (sc : Bool) :
    EvaluateStackHealth d none sc = EvaluateStackHealth d (some { services := none }) sc
    ∧ (EvaluateStackHealth d none sc).services
        = d.services.map (fun p => (p.1, missingServiceHealth p.1 p.2))
    ∧ ∀ q ∈ (EvaluateStackHealth d none sc).services,
        q.2.status = StatusFailed ∧ q.2.reasons = ["missing service"] := by
  have hentry : ∀ p : String × Compose.DesiredService,
      desiredEntryHealth [] p = missingServiceHealth p.1 p.2 := fun p => rfl
  have hservices : (EvaluateStackHealth d none sc).services
      = d.services.map (fun p => (p.1, missingServiceHealth p.1 p.2)) := by
    unfold EvaluateStackHealth
    cases sc with
    | false =>
      simp only [Bool.false_eq_true, if_false]
      rw [evalDesiredLoop_eq]
      simp [hentry]
    | true =>
      simp only [if_true]
      rw [evalDesiredLoop_eq, evalExtraLoop_eq]
      simp [hentry]
  refine ⟨rfl, hservices, ?_⟩
  intro q hq
  rw [hservices] at hq
  obtain ⟨p, _, rfl⟩ := List.mem_map.mp hq
  exact ⟨rfl, rfl⟩

theorem diffNames_eq_sortedDiff (ds as : List String) :
    diffNames ds as = (sortedDiff ds as, sortedDiff as ds) := by
  unfold diffNames sortedDiff
  split
  · rename_i h
    simp only [Bool.and_eq_true, List.isEmpty_iff] at h
    simp [h.1, h.2, sortStrings]
  · rfl

theorem filter_driftMap (k r mk mr : String) (names : List String) :
    ((names.map (fun n => ({ kind := mk, resource := mr, name := n } : DriftDetail))).filter
        (fun dd => dd.kind == k && dd.resource == r)) =
      (if mk == k && mr == r then
        names.map (fun n => ({ kind := mk, resource := mr, name := n } : DriftDetail))
      else []) := by
  induction names with
  | nil => simp
  | cons x xs ih =>
    by_cases h : (mk == k && mr == r) = true
    · simp only [List.map_cons, List.filter_cons, h, if_true]
      rw [ih]
      simp [h]
    · simp only [List.map_cons, List.filter_cons, h, if_false]
      rw [ih]
      simp [h]

theorem worsen_failed_absorb (a : String) : worsenStatus a StatusFailed = StatusFailed := by
  unfold worsenStatus
  split
  · rfl
  · rename_i h
    have h2 := severity_le_two a
    have : severity a = 2 := by
      have : (2 : Int) ≤ severity a := by
        have hsf : severity StatusFailed = 2 := by decide
        omega
      omega
    unfold severity at this
    by_cases hf : a = StatusFailed
    · exact hf
    · simp [hf] at this
      split at this <;> omega

theorem worsen_from_failed (b : String) : worsenStatus StatusFailed b = StatusFailed := by
  unfold worsenStatus
  split
  · rename_i h
    have := severity_le_two b
    have hsf : severity StatusFailed = 2 := by decide
    omega
  · rfl

theorem sev_worsen_left (a b : String) : severity a ≤ severity (worsenStatus a b) := by
  unfold worsenStatus
  split <;> omega

end Health

namespace Health

open SwarmSentinel

theorem driftFold_from_failed (l : List DriftDetail) :
    l.foldl (fun st d =>
      if d.kind = "MISSING" then worsenStatus st StatusFailed
      else if d.kind = "EXTRA" then worsenStatus st StatusDegraded
      else st) StatusFailed = StatusFailed := by
  induction l with
  | nil => rfl
  | cons d' l' ih =>
    simp only [List.foldl_cons]
    have hstep : (if d'.kind = "MISSING" then worsenStatus StatusFailed StatusFailed
        else if d'.kind = "EXTRA" then worsenStatus StatusFailed StatusDegraded
        else StatusFailed) = StatusFailed := by
      split
      · exact worsen_from_failed _
      · split
        · exact worsen_from_failed _
        · rfl
    rw [hstep, ih]

theorem driftFold_failed (l : List DriftDetail) : ∀ (st : String),
    (∃ d ∈ l, d.kind = "MISSING") →
    l.foldl (fun st d =>
      if d.kind = "MISSING" then worsenStatus st StatusFailed
      else if d.kind = "EXTRA" then worsenStatus st StatusDegraded
      else st) st = StatusFailed := by
  induction l with
  | nil => rintro st ⟨d, hd, _⟩; cases hd
  | cons d' l' ih =>
    rintro st ⟨d, hd, hk⟩
    rcases List.mem_cons.mp hd with rfl | hmem
    · simp only [List.foldl_cons]
      rw [if_pos hk, worsen_failed_absorb]
      exact driftFold_from_failed l'
    · simp only [List.foldl_cons]
      exact ih _ ⟨d, hmem, hk⟩

theorem driftFold_sev_mono (l : List DriftDetail) : ∀ (st : String),
    severity st ≤ severity (l.foldl (fun st d =>
      if d.kind = "MISSING" then worsenStatus st StatusFailed
      else if d.kind = "EXTRA" then worsenStatus st StatusDegraded
      else st) st) := by
  induction l with
  | nil => intro st; simp
  | cons d' l' ih =>
    intro st
    refine le_trans ?_ (ih _)
    show severity st ≤ severity (if d'.kind = "MISSING" then worsenStatus st StatusFailed
      else if d'.kind = "EXTRA" then worsenStatus st StatusDegraded else st)
    split
    · exact sev_worsen_left _ _
    · split
      · exact sev_worsen_left _ _
      · exact le_refl _

theorem sev_worsen_degraded (st : String) :
    1 ≤ severity (worsenStatus st StatusDegraded) := by
  unfold worsenStatus
  have hd : severity StatusDegraded = 1 := by decide
  split <;> omega

theorem driftFold_extra (l : List DriftDetail) : ∀ (st : String),
    (∃ d ∈ l, d.kind = "EXTRA") →
    1 ≤ severity (l.foldl (fun st d =>
      if d.kind = "MISSING" then worsenStatus st StatusFailed
      else if d.kind = "EXTRA" then worsenStatus st StatusDegraded
      else st) st) := by
  induction l with
  | nil => rintro st ⟨d, hd, _⟩; cases hd
  | cons d' l' ih =>
    rintro st ⟨d, hd, hk⟩
    rcases List.mem_cons.mp hd with rfl | hmem
    · simp only [List.foldl_cons]
      have hne : ¬ (d.kind = "MISSING") := by rw [hk]; decide
      rw [if_neg hne, if_pos hk]
      exact le_trans (sev_worsen_degraded st) (driftFold_sev_mono l' _)
    · simp only [List.foldl_cons]
      exact ih _ ⟨d, hmem, hk⟩

end Health

namespace Health

open SwarmSentinel

theorem evaluateService_drift_eq (name : String) (d : Compose.DesiredService)
    (a : Swarm.ActualService) :
    (evaluateService name d a).drift =
      (sortedDiff d.configs a.configs).map
          (fun n => ({ kind := "MISSING", resource := "config", name := n } : DriftDetail))
        ++ (sortedDiff a.configs d.configs).map
          (fun n => ({ kind := "EXTRA", resource := "config", name := n } : DriftDetail))
        ++ (sortedDiff d.secrets a.secrets).map
          (fun n => ({ kind := "MISSING", resource := "secret", name := n } : DriftDetail))
        ++ (sortedDiff a.secrets d.secrets).map
          (fun n => ({ kind := "EXTRA", resource := "secret", name := n } : DriftDetail)) := by
  simp [evaluateService, applyDrift, diffNames_eq_sortedDiff]

end Health

namespace Health

open SwarmSentinel

theorem evaluateService_status_foldl (name : String) (d : Compose.DesiredService)
    (a : Swarm.ActualService) :
    ∃ st2 : String, (evaluateService name d a).status =
      ((evaluateService name d a).drift).foldl (fun st dd =>
        if dd.kind = "MISSING" then worsenStatus st StatusFailed
        else if dd.kind = "EXTRA" then worsenStatus st StatusDegraded
        else st) st2 :=
  ⟨_, rfl⟩

theorem evaluateService_reasons_eq (name : String) (d : Compose.DesiredService)
    (a : Swarm.ActualService) :
    (evaluateService name d a).reasons =
      preDriftReasons d a
        ++ ((sortedDiff d.configs a.configs).map (fun n => "missing config: " ++ n)
        ++ ((sortedDiff a.configs d.configs).map (fun n => "extra config: " ++ n)
        ++ ((sortedDiff d.secrets a.secrets).map (fun n => "missing secret: " ++ n)
        ++ (sortedDiff a.secrets d.secrets).map (fun n => "extra secret: " ++ n)))) := by
  simp only [evaluateService, applyDrift, diffNames_eq_sortedDiff,
    show ("missing " ++ "config" ++ ": " : String) = "missing config: " from rfl,
    show ("extra " ++ "config" ++ ": " : String) = "extra config: " from rfl,
    show ("missing " ++ "secret" ++ ": " : String) = "missing secret: " from rfl,
    show ("extra " ++ "secret" ++ ": " : String) = "extra secret: " from rfl,
    List.append_assoc]

end Health

namespace Health

open SwarmSentinel

theorem map_name_driftMap (k r : String) (l : List String) :
    (l.map (fun n => ({ kind := k, resource := r, name := n } : DriftDetail))).map
      (fun dd => dd.name) = l := by
  induction l with
  | nil => rfl
  | cons x xs ih => simp [ih]

theorem map_name_comp (k r : String) (l : List String) :
    List.map ((fun dd : DriftDetail => dd.name) ∘
      fun n => ({ kind := k, resource := r, name := n } : DriftDetail)) l = l := by
  induction l with
  | nil => rfl
  | cons x xs ih => simp [Function.comp, ih]

/-- **C7**: For every declared service present in the observed state and
each resource kind, the evaluator's MISSING drift entries are exactly the
sorted set-difference desired − observed, the EXTRA entries exactly
observed − desired; a MISSING entry worsens the service to FAILED, an
EXTRA entry worsens it to DEGRADED (severity at least 1), and the
corresponding "missing <kind>: <name>" / "extra <kind>: <name>" reasons
are present. -/
theorem evaluateService_drift_spec (name : String) (d : Compose.DesiredService)
    (a : Swarm.ActualService) :
    (((evaluateService name d a).drift.filter
        (fun dd => dd.kind == "MISSING" && dd.resource == "config")).map (fun dd => dd.name)
      = sortedDiff d.configs a.configs)
    ∧ (((evaluateService name d a).drift.filter
        (fun dd => dd.kind == "EXTRA" && dd.resource == "config")).map (fun dd => dd.name)
      = sortedDiff a.configs d.configs)
    ∧ (((evaluateService name d a).drift.filter
        (fun dd => dd.kind == "MISSING" && dd.resource == "secret")).map (fun dd => dd.name)
      = sortedDiff d.secrets a.secrets)
    ∧ (((evaluateService name d a).drift.filter
        (fun dd => dd.kind == "EXTRA" && dd.resource == "secret")).map (fun dd => dd.name)
      = sortedDiff a.secrets d.secrets)
    ∧ ((∃ dd ∈ (evaluateService name d a).drift, dd.kind = "MISSING") →
        (evaluateService name d a).status = StatusFailed)
    ∧ ((∃ dd ∈ (evaluateService name d a).drift, dd.kind = "EXTRA") →
        1 ≤ severity (evaluateService name d a).status)
    ∧ (∀ x ∈ sortedDiff d.configs a.configs,
        ("missing config: " ++ x) ∈ (evaluateService name d a).reasons)
    ∧ (∀ x ∈ sortedDiff a.configs d.configs,
        ("extra config: " ++ x) ∈ (evaluateService name d a).reasons)
    ∧ (∀ x ∈ sortedDiff d.secrets a.secrets,
        ("missing secret: " ++ x) ∈ (evaluateService name d a).reasons)
    ∧ (∀ x ∈ sortedDiff a.secrets d.secrets,
        ("extra secret: " ++ x) ∈ (evaluateService name d a).reasons) := by
  have hdr := evaluateService_drift_eq name d a
  have hre := evaluateService_reasons_eq name d a
  refine ⟨?_, ?_, ?_, ?_, ?_, ?_, ?_, ?_, ?_, ?_⟩
  · rw [hdr]
    simp only [List.filter_append, filter_driftMap]
    simp [map_name_driftMap, map_name_comp]
  · rw [hdr]
    simp only [List.filter_append, filter_driftMap]
    simp [map_name_driftMap, map_name_comp]
  · rw [hdr]
    simp only [List.filter_append, filter_driftMap]
    simp [map_name_driftMap, map_name_comp]
  · rw [hdr]
    simp only [List.filter_append, filter_driftMap]
    simp [map_name_driftMap, map_name_comp]
  · intro hex
    obtain ⟨st2, hst⟩ := evaluateService_status_foldl name d a
    rw [hst]
    exact driftFold_failed _ _ hex
  · intro hex
    obtain ⟨st2, hst⟩ := evaluateService_status_foldl name d a
    rw [hst]
    exact driftFold_extra _ _ hex
  · intro x hx
    rw [hre]
    exact List.mem_append_right _ (List.mem_append_left _ (List.mem_map_of_mem _ hx))
  · intro x hx
    rw [hre]
    exact List.mem_append_right _ (List.mem_append_right _
      (List.mem_append_left _ (List.mem_map_of_mem _ hx)))
  · intro x hx
    rw [hre]
    exact List.mem_append_right _ (List.mem_append_right _ (List.mem_append_right _
      (List.mem_append_left _ (List.mem_map_of_mem _ hx))))
  · intro x hx
    rw [hre]
    exact List.mem_append_right _ (List.mem_append_right _ (List.mem_append_right _
      (List.mem_append_right _ (List.mem_map_of_mem _ hx))))

end Health

namespace SwarmSentinel

theorem charLe_total (a : List Char) : ∀ (b : List Char),
    charLe a b = true ∨ charLe b a = true := by
  induction a with
  | nil => intro b; left; rfl
  | cons x xs ih =>
    intro b
    cases b with
    | nil => right; rfl
    | cons y ys =>
      by_cases h1 : x.toNat < y.toNat
      · left; simp [charLe, h1]
      · by_cases h2 : y.toNat < x.toNat
        · right; simp [charLe, h2]
        · rcases ih ys with h | h
          · left; simp [charLe, h1, h2, h]
          · right; simp [charLe, h1, h2, h]

theorem charLe_trans (a : List Char) : ∀ (b c : List Char),
    charLe a b = true → charLe b c = true → charLe a c = true := by
  induction a with
  | nil => intro b c _ _; rfl
  | cons x xs ih =>
    intro b c hab hbc
    cases b with
    | nil => simp [charLe] at hab
    | cons y ys =>
      cases c with
      | nil => simp [charLe] at hbc
      | cons z zs =>
        simp only [charLe] at hab hbc ⊢
        split_ifs at hab hbc ⊢ <;>
          first
            | rfl
            | (exfalso; omega)
            | exact ih ys zs hab hbc

theorem strLe_total (a b : String) : strLe a b = true ∨ strLe b a = true :=
  charLe_total a.toList b.toList

theorem strLe_trans (a b c : String) :
    strLe a b = true → strLe b c = true → strLe a c = true :=
  charLe_trans a.toList b.toList c.toList

end SwarmSentinel

namespace Transition

open SwarmSentinel

/-- **C5**: For every prior snapshot and current `StackHealth`, the list
of transitions returned by the transition engine is sorted in ascending
order by service name. -/
theorem DetectServiceTransitions_sorted (prev : Option StateStore.StackSnapshot)
    (current : Health.StackHealth) :
    List.Sorted (fun a b : ServiceTransition => strLe a.name b.name = true)
      (DetectServiceTransitions prev current) := by
  unfold DetectServiceTransitions
  haveI : IsTrans ServiceTransition (fun a b => strLe a.name b.name = true) :=
    ⟨fun a b c hab hbc => strLe_trans _ _ _ hab hbc⟩
  haveI : IsTotal ServiceTransition (fun a b => strLe a.name b.name = true) :=
    ⟨fun a b => strLe_total _ _⟩
  exact List.sorted_insertionSort _ _

end Transition

namespace Health

open SwarmSentinel

/-- Witness for C7 at the spec's config/secret drift scenario. -/
theorem evaluateService_drift_spec_witness :
    (evaluateService "api" Fixtures.driftDesired Fixtures.driftActual).status = StatusFailed
    ∧ ("missing config: " ++ "cfg1")
        ∈ (evaluateService "api" Fixtures.driftDesired Fixtures.driftActual).reasons
    ∧ ("extra secret: " ++ "sec2")
        ∈ (evaluateService "api" Fixtures.driftDesired Fixtures.driftActual).reasons := by
  have h := evaluateService_drift_spec "api" Fixtures.driftDesired Fixtures.driftActual
  exact ⟨h.2.2.2.2.1 (by decide),
    h.2.2.2.2.2.2.1 "cfg1" (by decide),
    h.2.2.2.2.2.2.2.2.2 "sec2" (by decide)⟩

/-- **C2** (code bug): at the spec's update-in-progress scenario
(desired replicas 3, observed `running=1`, `updateState="updating"`),
the evaluator still derives the replica reason "replicas running 1/3"
and worsens the status to DEGRADED: no update suppression exists in
`evaluateService`, contradicting the spec and the repository's own test
`TestEvaluateStackHealth_UpdateInProgressSuppressesReplicaAlerts`. -/
theorem evaluateService_no_update_suppression :
    Fixtures.updActual.updateState ≠ ""
    ∧ 0 < Fixtures.updActual.runningReplicas
    ∧ (evaluateService "api" Fixtures.updDesired Fixtures.updActual).status = StatusDegraded
    ∧ "replicas running 1/3"
        ∈ (evaluateService "api" Fixtures.updDesired Fixtures.updActual).reasons := by
  exact ⟨by decide, by decide, by decide, by decide⟩

end Health

namespace StateStore

/-- **C9**: a persisted document with version 0 is upgraded to version 1
with its stacks preserved; a document with version greater than 1 is
discarded (fresh empty state); a document with version 1 is returned as
stored (nil stacks normalized to empty). -/
theorem loadState_versioning (st : StateDoc) :
    (st.version = 0 → loadState (some (some st)) =
      { version := 1, stacksMap := some (st.stacksMap.getD []) })
    ∧ (st.version > 1 → loadState (some (some st)) = freshState)
    ∧ (st.version = 1 → loadState (some (some st)) =
      { version := 1, stacksMap := some (st.stacksMap.getD []) }) := by
  obtain ⟨v, sm⟩ := st
  refine ⟨?_, ?_, ?_⟩
  · rintro rfl
    cases sm <;> simp [loadState, CurrentStateVersion]
  · intro h
    have h1 : (1 : Int) < v := h
    have h0 : ¬ ((v : Int) = 0) := by omega
    simp [loadState, CurrentStateVersion, freshState, h0, h1]
  · rintro rfl
    cases sm <;> simp [loadState, CurrentStateVersion]

/-- Witness for C9: a concrete version-0 document upgrades to version 1
keeping its single stack. -/
theorem loadState_versioning_witness :
    loadState (some (some { version := 0, stacksMap := some [("web", {})] }))
      = { version := 1, stacksMap := some [("web", {})] } :=
  (loadState_versioning { version := 0, stacksMap := some [("web", {})] }).1 rfl

end StateStore

namespace Runner

open SwarmSentinel

theorem prevStatusOf_stabLastNotified (p : Health.ServiceHealth) :
    Transition.prevStatusOf p = stabLastNotified (some p) := by
  unfold Transition.prevStatusOf stabLastNotified
  by_cases h : p.lastNotifiedStatus = ""
  · simp [h]
  · simp [h]

theorem lookupSvc_isEmpty_false {l : List (String × Health.ServiceHealth)} {k : String}
    {v : Health.ServiceHealth} (h : Transition.lookupSvc l k = some v) :
    l.isEmpty = false := by
  cases l with
  | nil => simp [Transition.lookupSvc] at h
  | cons p rest => rfl

theorem stabilizeLoop_eligible_mem (stab : Int)
    (prevServices : List (String × Health.ServiceHealth)) (firstRun : Bool) :
    ∀ (l : List (String × Health.ServiceHealth)) (name : String) (c : Health.ServiceHealth),
    (name, c) ∈ l →
    stabShouldNotify stab (Transition.lookupSvc prevServices name) firstRun c = true →
    (name, { c with
        consecutiveCycles := stabConsecutive (Transition.lookupSvc prevServices name) c
        lastNotifiedStatus := stabLastNotified (Transition.lookupSvc prevServices name) })
      ∈ (stabilizeLoop stab prevServices firstRun l).2 := by
  intro l
  induction l with
  | nil => intro name c h _; cases h
  | cons q rest ih =>
    intro name c hmem hnotif
    obtain ⟨qn, qc⟩ := q
    rcases List.mem_cons.mp hmem with heq | hrest
    · rw [Prod.mk.injEq] at heq
      obtain ⟨rfl, rfl⟩ := heq
      simp [stabilizeLoop, hnotif]
    · simp only [stabilizeLoop]
      by_cases hb : stabShouldNotify stab (Transition.lookupSvc prevServices qn) firstRun qc = true
      · rw [if_pos hb]
        exact List.mem_cons_of_mem _ (ih name c hrest hnotif)
      · rw [if_neg hb]
        exact ih name c hrest hnotif

theorem detectLoop_mem (prevServices : List (String × Health.ServiceHealth)) :
    ∀ (l : List (String × Health.ServiceHealth)) (name : String)
      (c p : Health.ServiceHealth),
    (name, c) ∈ l →
    Transition.lookupSvc prevServices name = some p →
    Transition.prevStatusOf p ≠ c.status →
    ({ name := name, previousStatus := Transition.prevStatusOf p, currentStatus := c.status,
       reasons := c.reasons, drift := c.drift,
       replicaChange := Transition.buildReplicaChange p c true,
       imageChange := Transition.buildImageChange p c true } : Transition.ServiceTransition)
      ∈ Transition.detectLoop prevServices false l := by
  intro l
  induction l with
  | nil => intro name c p h _ _; cases h
  | cons q rest ih =>
    intro name c p hmem hp hne
    obtain ⟨qn, qc⟩ := q
    rcases List.mem_cons.mp hmem with heq | hrest
    · rw [Prod.mk.injEq] at heq
      obtain ⟨rfl, rfl⟩ := heq
      simp only [Transition.detectLoop, hp, Option.isSome_some, Option.getD_some,
        Bool.false_eq_true, if_false, if_true]
      rw [if_neg hne]
      exact List.mem_cons_self _ _
    · simp only [Transition.detectLoop]
      split <;> (try split) <;> (try split) <;>
        first
          | exact ih name c p hrest hp hne
          | exact List.mem_cons_of_mem _ (ih name c p hrest hp hne)

/-- **C1**: For every stack whose prior snapshot contains a service whose
current status differs from its (resolved) last-notified status, a
transition for that service is emitted in any cycle in which the
stabilization threshold is met (`S ≤ 1` or `consecutiveCycles ≥ S`),
with `previousStatus` the resolved last-notified status and
`currentStatus` the current status. -/
theorem stabilize_emits (S : Int) (snap : StateStore.StackSnapshot)
    (current : Health.StackHealth) (name : String) (p c : Health.ServiceHealth)
    (hp : Transition.lookupSvc (snap.services.getD []) name = some p)
    (hc : (name, c) ∈ current.services)
    (hne : c.status ≠ stabLastNotified (some p))
    (hthr : (if S ≤ 0 then 1 else S) ≤ 1
      ∨ stabConsecutive (some p) c ≥ (if S ≤ 0 then 1 else S)) :
    ∃ t ∈ (stabilizeTransitions S (some snap) current).2,
      t.name = name ∧ t.previousStatus = stabLastNotified (some p)
        ∧ t.currentStatus = c.status := by
  have hps : Transition.snapServices (some snap) = snap.services.getD [] := rfl
  have hfr : Transition.isFirstRun (some snap) = false := by
    unfold Transition.isFirstRun
    rw [hps]
    exact lookupSvc_isEmpty_false hp
  have hnotif : stabShouldNotify (if S ≤ 0 then 1 else S)
      (Transition.lookupSvc (snap.services.getD []) name) false c = true := by
    unfold stabShouldNotify
    rw [hp]
    simp only [Bool.false_eq_true, if_false]
    rw [if_pos (bne_iff_ne.mpr hne)]
    rcases hthr with h | h
    · simp [h]
    · simp [h]
  have helig := stabilizeLoop_eligible_mem (if S ≤ 0 then 1 else S)
      (snap.services.getD []) false current.services name c hc hnotif
  have hne' : Transition.prevStatusOf p ≠
      ({ c with
          consecutiveCycles := stabConsecutive (Transition.lookupSvc (snap.services.getD []) name) c
          lastNotifiedStatus := stabLastNotified (Transition.lookupSvc (snap.services.getD []) name) }
        : Health.ServiceHealth).status := by
    rw [prevStatusOf_stabLastNotified]
    exact Ne.symm hne
  have hdet := detectLoop_mem (snap.services.getD [])
      ((stabilizeLoop (if S ≤ 0 then 1 else S) (snap.services.getD []) false current.services).2)
      name _ p helig hp hne'
  have hmain : (stabilizeTransitions S (some snap) current).2
      = List.insertionSort (fun a b => strLe a.name b.name = true)
          (Transition.detectLoop (snap.services.getD []) false
            ((stabilizeLoop (if S ≤ 0 then 1 else S) (snap.services.getD [])
              false current.services).2)) := by
    simp only [stabilizeTransitions, Transition.DetectServiceTransitions, hfr, hps]
  rw [hmain]
  exact ⟨_, (List.perm_insertionSort _ _).mem_iff.mpr hdet, rfl,
    prevStatusOf_stabLastNotified p, rfl⟩

end Runner

namespace Runner

/-- Witness for C1: the spec's two-cycle stabilization scenario with S=2.
Cycle A (prior `api` OK, current DEGRADED) emits nothing and records
`consecutiveCycles = 1`, `lastNotifiedStatus = "OK"`; cycle B (same
degraded health again) emits the OK → DEGRADED transition. -/
theorem stabilize_emits_witness :
    (stabilizeTransitions 2 (some Fixtures.snapBeforeA) Fixtures.degradedHealth).2 = []
    ∧ (stabilizeTransitions 2 (some Fixtures.snapBeforeA) Fixtures.degradedHealth).1
        = [("api", Fixtures.apiAfterA)]
    ∧ ∃ t ∈ (stabilizeTransitions 2 (some Fixtures.snapBeforeB) Fixtures.degradedHealth).2,
        t.name = "api" ∧ t.previousStatus = "OK" ∧ t.currentStatus = "DEGRADED" := by
  refine ⟨by decide, by decide, ?_⟩
  obtain ⟨t, hmem, h1, h2, h3⟩ := stabilize_emits 2 Fixtures.snapBeforeB
    Fixtures.degradedHealth "api" Fixtures.apiAfterA Fixtures.apiDegraded
    (by decide) (by decide) (by decide) (by decide)
  exact ⟨t, hmem, h1, by rw [h2]; decide, by rw [h3]; rfl⟩

end Runner

namespace Config

open SwarmSentinel

/-- **C3** (spec-modelled): a compose URL is accepted by validation iff
its scheme is http or https, its host is none of the blocked metadata
endpoints, and its host is not an address in 169.254.0.0/16; every URL
violating one of these conditions is rejected with an error. -/
theorem validateComposeURL_ssrf (u : ParsedURL) :
    (validateComposeURL u = none ↔
      ((u.scheme = "http" ∨ u.scheme = "https")
        ∧ u.host ∉ blockedMetadataHosts
        ∧ isLinkLocal u.host = false))
    ∧ (validateComposeURL u ≠ none ↔
      ¬ ((u.scheme = "http" ∨ u.scheme = "https")
        ∧ u.host ∉ blockedMetadataHosts
        ∧ isLinkLocal u.host = false)) := by
  have hmain : validateComposeURL u = none ↔
      ((u.scheme = "http" ∨ u.scheme = "https")
        ∧ u.host ∉ blockedMetadataHosts
        ∧ isLinkLocal u.host = false) := by
    unfold validateComposeURL
    split_ifs with h1 h2 h3
    · simp only [Bool.and_eq_true, decide_eq_true_eq] at h1
      simp only [reduceCtorEq, false_iff]
      rintro ⟨hs | hs, -, -⟩ <;> exact absurd hs (by tauto)
    · simp only [reduceCtorEq, false_iff]
      rintro ⟨-, hb, -⟩
      exact hb (by simpa using h2)
    · simp only [reduceCtorEq, false_iff]
      rintro ⟨-, -, hl⟩
      rw [h3] at hl
      cases hl
    · simp only [true_iff]
      refine ⟨?_, ?_, ?_⟩
      · by_contra hs
        push_neg at hs
        exact h1 (by simp [hs.1, hs.2])
      · intro hb
        exact h2 (by simpa using hb)
      · simpa using h3
  exact ⟨hmain, by rw [← hmain]⟩

/-- Witness for C3: a metadata-endpoint URL is rejected, a link-local
URL is rejected, and an ordinary https URL is accepted. -/
theorem validateComposeURL_ssrf_witness :
    validateComposeURL { scheme := "https", host := "artifacts.example.com" } = none
    ∧ validateComposeURL { scheme := "http", host := "169.254.169.254" } ≠ none
    ∧ validateComposeURL { scheme := "http", host := "169.254.1.1" } ≠ none
    ∧ validateComposeURL { scheme := "ftp", host := "example.com" } ≠ none := by
  refine ⟨(validateComposeURL_ssrf _).1.mpr ⟨Or.inr rfl, by decide, by decide⟩,
    (validateComposeURL_ssrf _).2.mpr ?_,
    (validateComposeURL_ssrf _).2.mpr ?_,
    (validateComposeURL_ssrf _).2.mpr ?_⟩
  · rintro ⟨-, hb, -⟩; exact hb (by decide)
  · rintro ⟨-, -, hl⟩; revert hl; decide
  · rintro ⟨hs | hs, -, -⟩ <;> revert hs <;> decide

end Config

namespace Compose

/-- **C4** (spec-modelled): every non-2xx, non-304 response yields a
`FetchError` carrying that status code, and retryability is decided from
the typed status code alone (`IsRetryable` is true exactly for 5xx),
with no message-string matching involved. -/
theorem fetchResponseError_carries_status (status : Nat)
    (h2xx : ¬ (200 ≤ status ∧ status < 300)) (h304 : status ≠ 304) :
    ∃ e : FetchError, fetchResponseError status = some e
      ∧ e.statusCode = status
      ∧ (e.IsRetryable = true ↔ (500 ≤ status ∧ status < 600)) := by
  refine ⟨{ statusCode := status }, ?_, rfl, ?_⟩
  · unfold fetchResponseError
    rw [if_neg]
    rintro (h | h)
    · exact h2xx h
    · exact h304 h
  · unfold FetchError.IsRetryable
    simp

/-- Witness for C4 at status 404: the error carries 404 and is not
retryable; contrast 503, which is retryable. -/
theorem fetchResponseError_carries_status_witness :
    (∃ e : FetchError, fetchResponseError 404 = some e ∧ e.statusCode = 404
      ∧ (e.IsRetryable = true ↔ (500 ≤ 404 ∧ 404 < 600)))
    ∧ (fetchResponseError 503).map (fun e => e.IsRetryable) = some true := by
  exact ⟨fetchResponseError_carries_status 404 (by decide) (by decide), by decide⟩

end Compose

namespace SwarmSentinel

theorem startsWithChars_nil (s : List Char) : startsWithChars s [] = true := by
  cases s <;> rfl

theorem startsWithChars_append (pat y : List Char) :
    startsWithChars (pat ++ y) pat = true := by
  induction pat with
  | nil => exact startsWithChars_nil y
  | cons c cs ih => simp [startsWithChars, ih]

theorem findSubIdx_self_append (pat y : List Char) :
    (findSubIdx (pat ++ y) pat).isSome = true := by
  cases pat with
  | nil =>
    cases y <;> simp [findSubIdx, startsWithChars_nil]
  | cons c cs =>
    rw [List.cons_append, findSubIdx, if_pos]
    · rfl
    · exact startsWithChars_append (c :: cs) y

theorem findSubIdx_isSome_append_left (x : List Char) (pat rest : List Char)
    (h : (findSubIdx rest pat).isSome = true) :
    (findSubIdx (x ++ rest) pat).isSome = true := by
  induction x with
  | nil => simpa using h
  | cons c cs ih =>
    rw [List.cons_append, findSubIdx]
    split
    · rfl
    · simpa using ih

theorem length_dropWhile_le (p : Char → Bool) (l : List Char) :
    (l.dropWhile p).length ≤ l.length := by
  induction l with
  | nil => simp
  | cons c cs ih =>
    rw [List.dropWhile_cons]
    split
    · exact le_trans ih (by simp)
    · simp

theorem trimSpaceChars_length_le (l : List Char) :
    (trimSpaceChars l).length ≤ l.length := by
  unfold trimSpaceChars
  rw [List.length_reverse]
  refine le_trans (length_dropWhile_le _ _) ?_
  rw [List.length_reverse]
  exact length_dropWhile_le _ _

end SwarmSentinel

namespace Notify

open SwarmSentinel

theorem bodyTextOf_length_le (body : String) :
    (bodyTextOf body).toList.length ≤ httpErrorBodyLimit := by
  unfold bodyTextOf trimSpace
  refine le_trans (trimSpaceChars_length_le _) ?_
  simp [List.length_take_le]

/-- **C8**: response classification of the notifier's HTTP poster.
2xx succeeds.  A 429 whose `Retry-After` parses as positive integer
seconds (or, failing integer parse, as an HTTP date in the future) makes
the retry loop sleep exactly that duration before retrying.  A 429
without a usable `Retry-After` and any 5xx yield a `retryableError`
driven by the exponential-backoff wait.  Any other non-2xx status is a
terminal error whose message carries the status line and at most
`httpErrorBodyLimit` (1 KiB) of the trimmed response body. -/
theorem classifyResponse_spec (sn : String) (resp : HTTPResponse)
    (dateUntil : Option Int) (nextBackoff : Option Int) :
    (200 ≤ resp.statusCode ∧ resp.statusCode < 300 →
      classifyResponse sn resp dateUntil = none
      ∧ postWithRetryStep (classifyResponse sn resp dateUntil) nextBackoff = .succeed)
    ∧ (resp.statusCode = 429 →
      ∀ s : Int, atoi resp.retryAfterHeader = some s → 0 < s →
        classifyResponse sn resp dateUntil
          = some (.retryAfter (s * 1000000000) (sn ++ " rate limited: " ++ resp.statusText))
        ∧ postWithRetryStep (classifyResponse sn resp dateUntil) nextBackoff
          = .sleepThenRetry (s * 1000000000))
    ∧ (resp.statusCode = 429 → resp.retryAfterHeader ≠ "" →
      atoi resp.retryAfterHeader = none →
      ∀ w : Int, dateUntil = some w → 0 < w →
        postWithRetryStep (classifyResponse sn resp dateUntil) nextBackoff
          = .sleepThenRetry w)
    ∧ (resp.statusCode = 429 → parseRetryAfter resp.retryAfterHeader dateUntil = none →
      classifyResponse sn resp dateUntil
        = some (.retryable (sn ++ " rate limited: " ++ resp.statusText))
      ∧ ∀ w : Int, nextBackoff = some w →
        postWithRetryStep (classifyResponse sn resp dateUntil) nextBackoff
          = .sleepThenRetry w)
    ∧ (500 ≤ resp.statusCode →
      classifyResponse sn resp dateUntil
        = some (.retryable (sn ++ " server error: " ++ resp.statusText))
      ∧ ∀ w : Int, nextBackoff = some w →
        postWithRetryStep (classifyResponse sn resp dateUntil) nextBackoff
          = .sleepThenRetry w)
    ∧ (¬ (200 ≤ resp.statusCode ∧ resp.statusCode < 300) → resp.statusCode ≠ 429 →
      resp.statusCode < 500 →
      ∃ m : String, classifyResponse sn resp dateUntil = some (.terminal m)
        ∧ postWithRetryStep (classifyResponse sn resp dateUntil) nextBackoff = .fail m
        ∧ containsSubstr m resp.statusText = true
        ∧ (bodyTextOf resp.body).toList.length ≤ httpErrorBodyLimit) := by
  refine ⟨?_, ?_, ?_, ?_, ?_, ?_⟩
  · intro h
    have h1 : classifyResponse sn resp dateUntil = none := by
      unfold classifyResponse
      rw [if_pos h]
    exact ⟨h1, by rw [h1]; rfl⟩
  · intro h429 s hs hspos
    have hhdr : resp.retryAfterHeader ≠ "" := by
      intro hh
      rw [hh] at hs
      exact Option.noConfusion hs
    have hparse : parseRetryAfter resp.retryAfterHeader dateUntil
        = some (s * 1000000000) := by
      unfold parseRetryAfter
      rw [if_neg hhdr, hs]
      exact if_neg (by omega)
    have h1 : classifyResponse sn resp dateUntil
        = some (.retryAfter (s * 1000000000) (sn ++ " rate limited: " ++ resp.statusText)) := by
      unfold classifyResponse
      rw [if_neg (by rw [h429]; decide), if_pos h429, hparse]
    exact ⟨h1, by rw [h1]; rfl⟩
  · intro h429 hhdr hat w hdw hwpos
    have hparse : parseRetryAfter resp.retryAfterHeader dateUntil = some w := by
      unfold parseRetryAfter
      rw [if_neg hhdr, hat, hdw]
      exact if_neg (by omega)
    have h1 : classifyResponse sn resp dateUntil
        = some (.retryAfter w (sn ++ " rate limited: " ++ resp.statusText)) := by
      unfold classifyResponse
      rw [if_neg (by rw [h429]; decide), if_pos h429, hparse]
    rw [h1]; rfl
  · intro h429 hparse
    have h1 : classifyResponse sn resp dateUntil
        = some (.retryable (sn ++ " rate limited: " ++ resp.statusText)) := by
      unfold classifyResponse
      rw [if_neg (by rw [h429]; decide), if_pos h429, hparse]
    exact ⟨h1, fun w hw => by rw [h1, hw]; rfl⟩
  · intro h5
    have h1 : classifyResponse sn resp dateUntil
        = some (.retryable (sn ++ " server error: " ++ resp.statusText)) := by
      unfold classifyResponse
      rw [if_neg (by omega), if_neg (by omega), if_pos h5]
    exact ⟨h1, fun w hw => by rw [h1, hw]; rfl⟩
  · intro hn2 hn429 hlt
    by_cases hb : bodyTextOf resp.body = ""
    · refine ⟨sn ++ " request failed: " ++ resp.statusText, ?_, ?_, ?_, bodyTextOf_length_le _⟩
      case _ =>
        unfold classifyResponse
        rw [if_neg hn2, if_neg hn429, if_neg (by omega), if_neg (by simpa using hb)]
      case _ =>
        have h1 : classifyResponse sn resp dateUntil
            = some (.terminal (sn ++ " request failed: " ++ resp.statusText)) := by
          unfold classifyResponse
          rw [if_neg hn2, if_neg hn429, if_neg (by omega), if_neg (by simpa using hb)]
        rw [h1]; rfl
      case _ =>
        unfold containsSubstr
        have hsplit : (sn ++ " request failed: " ++ resp.statusText).toList
            = (sn.toList ++ " request failed: ".toList)
              ++ (resp.statusText.toList ++ []) := by
          simp [String.toList, String.data_append]
        rw [hsplit]
        exact findSubIdx_isSome_append_left _ _ _ (findSubIdx_self_append _ _)
    · refine ⟨sn ++ " request failed: " ++ resp.statusText
          ++ " (" ++ bodyTextOf resp.body ++ ")", ?_, ?_, ?_, bodyTextOf_length_le _⟩
      case _ =>
        unfold classifyResponse
        rw [if_neg hn2, if_neg hn429, if_neg (by omega), if_pos (by simpa using hb)]
      case _ =>
        have h1 : classifyResponse sn resp dateUntil
            = some (.terminal (sn ++ " request failed: " ++ resp.statusText
              ++ " (" ++ bodyTextOf resp.body ++ ")")) := by
          unfold classifyResponse
          rw [if_neg hn2, if_neg hn429, if_neg (by omega), if_pos (by simpa using hb)]
        rw [h1]; rfl
      case _ =>
        unfold containsSubstr
        have hsplit : (sn ++ " request failed: " ++ resp.statusText
            ++ " (" ++ bodyTextOf resp.body ++ ")").toList
            = (sn.toList ++ " request failed: ".toList)
              ++ (resp.statusText.toList
                ++ (" (".toList ++ (bodyTextOf resp.body).toList ++ ")".toList)) := by
          simp [String.toList, String.data_append]
        rw [hsplit]
        exact findSubIdx_isSome_append_left _ _ _ (findSubIdx_self_append _ _)

/-- Witness for C8: a 429 with `Retry-After: 2` sleeps exactly 2 seconds
(2·10⁹ ns) before the retry. -/
theorem classifyResponse_spec_witness :
    postWithRetryStep (classifyResponse "slack" Fixtures.resp429 none) (some 5)
      = .sleepThenRetry 2000000000 :=
  ((classifyResponse_spec "slack" Fixtures.resp429 none (some 5)).2.1
    rfl 2 (by decide) (by decide)).2

end Notify

namespace Health

/-- Witness for C10 at one declared service: with a nil actual state the
service is reported missing and FAILED. -/
theorem EvaluateStackHealth_nil_actual_witness :
    (EvaluateStackHealth { services := [("api", Fixtures.updDesired)] } none true).services
      = [("api", missingServiceHealth "api" Fixtures.updDesired)]
    ∧ (missingServiceHealth "api" Fixtures.updDesired).status = StatusFailed
    ∧ (missingServiceHealth "api" Fixtures.updDesired).reasons = ["missing service"] := by
  have h := EvaluateStackHealth_nil_actual { services := [("api", Fixtures.updDesired)] } true
  exact ⟨h.2.1, by decide, by decide⟩

end Health
